import Mathlib

/-!
Verification of the configuration-resolution module of conda-build
(`conda_build/config.py`).

The module is shallowly embedded below.  Python strings are Lean
`String`s (or `List Char` for the character-level placeholder
algorithm), Python `None`/value cells are `Option`s, the process
environment is an explicit function `String → Option String`, and the
external `conda.config` collaborator (`import conda.config as cc`) is a
record of parameters.  Fallible operations (`int(...)`, attribute
errors) return `Except PyError`.
-/

namespace CondaBuild

/-- A Python error raised during `set_keys`: `int()` on a malformed
string raises `ValueError`; calling `.replace` on a list raises
`AttributeError`. -/
inductive PyError where
  | valueError
  | attributeError
deriving DecidableEq, Repr

/-- A value passed for a version setting in `**kwargs`: either a scalar
string or a list of strings (CLI-style arguments). -/
inductive VerArg where
  | vstr (s : String)
  | vlist (l : List String)
deriving DecidableEq, Repr

/-- Python truthiness of a version-setting value: the empty string and
the empty list are falsy. -/
def truthyV : VerArg → Bool
  | VerArg.vstr s => !(s == "")
  | VerArg.vlist l => !(l.isEmpty)

/-- ASCII upper-casing of one character, as `str.upper` does for the
ASCII-only setting names used here. -/
def pyUpperChar (c : Char) : Char :=
  if 'a' ≤ c ∧ c ≤ 'z' then Char.ofNat (c.toNat - 32) else c

/-- ASCII model of Python `str.upper`. -/
def pyUpper (s : String) : String := String.mk (s.data.map pyUpperChar)

/-- The environment-variable name consulted for a version setting:
`var = 'CONDA_' + lang.upper()`, after the corner case that rewrites
`'python'` to `'py'` (config.py lines 36-39). -/
def envVarName (lang : String) : String :=
  "CONDA_" ++ pyUpper (if lang == "python" then "py" else lang)

/-- `os.getenv(var) if os.getenv(var) else default` (config.py line 40):
an unset or empty environment variable falls back to the default. -/
def envLookupOr (environ : String → Option String) (lang : String)
    (default : String) : String :=
  match environ (envVarName lang) with
  | some s => if s == "" then default else s
  | Option.none => default

/-- The nested helper `env(lang, default)` of `Config.set_keys`
(config.py lines 33-43): a falsy override falls back to the
environment variable, then the default; a truthy single-element list
is unwrapped to its element; any other truthy value is returned
unchanged. -/
def env (environ : String → Option String) (version : Option VerArg)
    (lang : String) (default : String) : VerArg :=
  match version with
  | Option.none => VerArg.vstr (envLookupOr environ lang default)
  | some v =>
    if truthyV v then
      match v with
      | VerArg.vlist (x :: []) => VerArg.vstr x
      | w => w
    else VerArg.vstr (envLookupOr environ lang default)

/-- `version.replace('.', '')`: remove every dot. -/
def removeDots (s : String) : String :=
  String.mk (s.data.filter (fun c => !(c == '.')))

/-- Numeric value of a decimal digit string (most significant first). -/
def digitsVal (l : List Char) : Nat :=
  l.foldl (fun a c => 10 * a + (c.toNat - 48)) 0

/-- Whitespace characters stripped by Python `int()`. -/
def isSpaceChar (c : Char) : Bool :=
  c == ' ' || c == '\t' || c == '\n' || c == '\r'

/-- A nonempty run of decimal digits, or failure. -/
def parseDigits (l : List Char) : Option Nat :=
  if l.isEmpty then Option.none
  else if l.all Char.isDigit then some (digitsVal l) else Option.none

/-- Model of the builtin `int()` applied to a decimal string: optional
surrounding whitespace, an optional sign, then a nonempty digit run.
(Locale digits and the underscore group separators of newer
interpreters are not modelled; the version strings at issue are digits
and dots.) -/
def pyIntOfString (s : String) : Option Int :=
  match ((s.data.dropWhile isSpaceChar).reverse.dropWhile
      isSpaceChar).reverse with
  | [] => Option.none
  | c :: rest =>
    if c == '-' then Option.map (fun n : Nat => -(n : Int)) (parseDigits rest)
    else if c == '+' then Option.map (fun n : Nat => (n : Int)) (parseDigits rest)
    else Option.map (fun n : Nat => (n : Int)) (parseDigits (c :: rest))

/-- `int(x.replace('.', ''))` applied to the resolved primary-language
version (config.py lines 48-49).  A list value has no `.replace` and
raises `AttributeError`; a non-numeric remainder raises `ValueError`. -/
def normalizePy (v : VerArg) : Except PyError Int :=
  match v with
  | VerArg.vlist _ => Except.error PyError.attributeError
  | VerArg.vstr s =>
    match pyIntOfString (removeDots s) with
    | some n => Except.ok n
    | Option.none => Except.error PyError.valueError

/-- `CONDA_NPY` normalization (config.py lines 51-53): a falsy raw
value is kept unresolved; a truthy string is normalized with
`int(x.replace('.', '')) or None`; a truthy list raises
`AttributeError` (there is no single-element unwrapping here). -/
def normalizeNpy (raw : Option VerArg) : Except PyError (Option Int) :=
  match raw with
  | Option.none => Except.ok Option.none
  | some v =>
    if truthyV v then
      match v with
      | VerArg.vstr s =>
        match pyIntOfString (removeDots s) with
        | some n => Except.ok (if n = 0 then Option.none else some n)
        | Option.none => Except.error PyError.valueError
      | VerArg.vlist _ => Except.error PyError.attributeError
    else Except.ok Option.none

/-- Decidable equality of `Except` results, for evaluating the model
at concrete inputs. -/
instance {ε α : Type} [DecidableEq ε] [DecidableEq α] :
    DecidableEq (Except ε α) := fun x y =>
  match x, y with
  | Except.error e, Except.error f =>
    if h : e = f then isTrue (by rw [h])
    else isFalse (by intro hc; cases hc; exact h rfl)
  | Except.error e, Except.ok b => isFalse (by intro hc; cases hc)
  | Except.ok a, Except.error f => isFalse (by intro hc; cases hc)
  | Except.ok a, Except.ok b =>
    if h : a = b then isTrue (by rw [h])
    else isFalse (by intro hc; cases hc; exact h rfl)

/-- The keyword-argument mapping accepted by `Config.set_keys`.  A
`none` field is an omitted key (other, unrecognized keys are ignored
by the source and need not be modelled). -/
structure Kwargs where
  perl : Option VerArg
  lua : Option VerArg
  r : Option VerArg
  python : Option VerArg
  numpy : Option VerArg
  build_id : Option String
  prefix_length : Option Int
  croot : Option String
  use_long_build_pfx : Option Bool
  activate : Option Bool
  anaconda_upload : Option Bool
  channel_urls : Option (List String)
  dirty : Option Bool
  include_recipe : Option Bool
  keep_old_work : Option Bool
  noarch : Option Bool
  no_download_source : Option Bool
  override_channels : Option Bool
  skip_existing : Option Bool
  token : Option (Option String)
  user : Option (Option String)
  verbose : Option Bool
deriving DecidableEq, Repr

/-- The empty `**kwargs` mapping. -/
def emptyKwargs : Kwargs :=
  ⟨Option.none, Option.none, Option.none, Option.none, Option.none,
   Option.none, Option.none, Option.none, Option.none, Option.none,
   Option.none, Option.none, Option.none, Option.none, Option.none,
   Option.none, Option.none, Option.none, Option.none, Option.none,
   Option.none, Option.none⟩

/-- The external `conda.config` collaborator (`cc`) together with the
interpreter default used for `CONDA_PY` (`"%s%s" %
(sys.version_info.major, sys.version_info.minor)`). -/
structure CCState where
  binstar_upload : Bool
  subdir : String
  root_dir : String
  root_writable : Bool
  rc_root_dir : Option String
  sys_py_default : String
deriving DecidableEq, Repr

/-- The attributes of a fully initialized `Config` object. -/
structure ConfigState where
  CONDA_PERL : VerArg
  CONDA_LUA : VerArg
  CONDA_R : VerArg
  CONDA_PY : Int
  CONDA_NPY : Option Int
  build_id : String
  prefix_length : Int
  crootVal : Option String
  use_long_build_pfx : Bool
  activate : Bool
  anaconda_upload : Bool
  channel_urls : List String
  dirty : Bool
  include_recipe : Bool
  keep_old_work : Bool
  noarch : Bool
  no_download_source : Bool
  override_channels : Bool
  skip_existing : Bool
  token : Option String
  user : Option String
  verbose : Bool
deriving DecidableEq, Repr

/-- `Config._set_attribute_from_kwargs` (config.py lines 28-30):
explicit override, else the current attribute when it exists, else the
default. -/
def setAttrFromKwargs {α : Type} (kwv : Option α) (cur : Option α)
    (default : α) : α :=
  match kwv with
  | some v => v
  | Option.none =>
    match cur with
    | some c => c
    | Option.none => default

/-- The raw `CONDA_NPY` value before normalization:
`kwargs.get('numpy', os.getenv("CONDA_NPY"))` (config.py line 51). -/
def rawNpy (environ : String → Option String) (kw : Kwargs) :
    Option VerArg :=
  match kw.numpy with
  | some v => some v
  | Option.none => (environ "CONDA_NPY").map VerArg.vstr

/-- `Config.set_keys` (config.py lines 32-79).  `prev` is the state of
the object before the call (`Option.none` for a fresh object during
`Config.__init__`, when `hasattr` is false for every namedtuple-driven
setting).  The whole updated state is returned, or the first error
raised. -/
def set_keys (environ : String → Option String) (cc : CCState)
    (prev : Option ConfigState) (kw : Kwargs) :
    Except PyError ConfigState :=
  match normalizePy (env environ kw.python "python" cc.sys_py_default) with
  | Except.error e => Except.error e
  | Except.ok condaPy =>
    match normalizeNpy (rawNpy environ kw) with
    | Except.error e => Except.error e
    | Except.ok condaNpy =>
      Except.ok
        { CONDA_PERL := env environ kw.perl "perl" "5.18.2"
          CONDA_LUA := env environ kw.lua "lua" "5.2"
          CONDA_R := env environ kw.r "r" "3.2.2"
          CONDA_PY := condaPy
          CONDA_NPY := condaNpy
          build_id := kw.build_id.getD ""
          prefix_length := kw.prefix_length.getD 80
          crootVal := kw.croot
          use_long_build_pfx := kw.use_long_build_pfx.getD false
          activate :=
            setAttrFromKwargs kw.activate (prev.map ConfigState.activate) true
          anaconda_upload :=
            setAttrFromKwargs kw.anaconda_upload
              (prev.map ConfigState.anaconda_upload) cc.binstar_upload
          channel_urls :=
            setAttrFromKwargs kw.channel_urls
              (prev.map ConfigState.channel_urls) []
          dirty := setAttrFromKwargs kw.dirty (prev.map ConfigState.dirty) false
          include_recipe :=
            setAttrFromKwargs kw.include_recipe
              (prev.map ConfigState.include_recipe) true
          keep_old_work :=
            setAttrFromKwargs kw.keep_old_work
              (prev.map ConfigState.keep_old_work) false
          noarch := setAttrFromKwargs kw.noarch (prev.map ConfigState.noarch) false
          no_download_source :=
            setAttrFromKwargs kw.no_download_source
              (prev.map ConfigState.no_download_source) false
          override_channels :=
            setAttrFromKwargs kw.override_channels
              (prev.map ConfigState.override_channels) false
          skip_existing :=
            setAttrFromKwargs kw.skip_existing
              (prev.map ConfigState.skip_existing) false
          token :=
            setAttrFromKwargs kw.token (prev.map ConfigState.token) Option.none
          user :=
            setAttrFromKwargs kw.user (prev.map ConfigState.user) Option.none
          verbose :=
            setAttrFromKwargs kw.verbose (prev.map ConfigState.verbose) false }

/-- `get_or_merge_config` (config.py lines 258-263): construct a fresh
`Config()` when none is given, then merge the keyword arguments when
the mapping is nonempty. -/
def get_or_merge_config (environ : String → Option String) (cc : CCState)
    (config : Option ConfigState) (kw : Kwargs) :
    Except PyError ConfigState :=
  match config with
  | some c =>
    if kw = emptyKwargs then Except.ok c
    else set_keys environ cc (some c) kw
  | Option.none =>
    match set_keys environ cc Option.none emptyKwargs with
    | Except.error e => Except.error e
    | Except.ok c =>
      if kw = emptyKwargs then Except.ok c
      else set_keys environ cc (some c) kw

/-- Whether a path string starts with the separator `'/'`. -/
def headIsSlash (s : String) : Bool :=
  match s.data with
  | [] => false
  | c :: _ => c == '/'

/-- Whether a path string ends with the separator `'/'`. -/
def lastIsSlash (s : String) : Bool :=
  match s.data.getLast? with
  | some c => c == '/'
  | Option.none => false

/-- `os.path.join(a, b)` for two components on a POSIX path module: an
absolute second component replaces the first; otherwise the separator
is inserted unless the first component is empty or already ends with
it. -/
def joinPath (a b : String) : String :=
  if headIsSlash b then b
  else if a == "" || lastIsSlash a then a ++ b
  else a ++ "/" ++ b

/-- Python truthiness of the `_croot` cell: `None` and `""` are falsy. -/
def truthyStr : Option String → Bool
  | some s => !(s == "")
  | Option.none => false

/-- The fallback chain of the `croot` property when nothing truthy is
cached (config.py lines 84-94).  `expand` abstracts
`abspath(expanduser(·))`, a pure function of the external path
module. -/
def crootFallback (expand : String → String)
    (environ : String → Option String) (cc : CCState) : String :=
  let e := (environ "CONDA_BLD_PATH").getD ""
  let rc := cc.rc_root_dir.getD ""
  if !(e == "") then expand e
  else if !(rc == "") then expand rc
  else if cc.root_writable then joinPath cc.root_dir "conda-bld"
  else expand "~/conda-bld"

/-- The value returned by the `croot` property from a given `_croot`
cell: a truthy cached or explicit value is returned unchanged, a falsy
cell triggers the fallback chain. -/
def crootValue (expand : String → String)
    (environ : String → Option String) (cc : CCState)
    (cur : Option String) : String :=
  if truthyStr cur then cur.getD "" else crootFallback expand environ cc

/-- One access of the `croot` property as a state transition on the
`_croot` cell: the returned value and the cell afterwards (the
property stores the resolved value when the cell was falsy). -/
def crootAccess (expand : String → String)
    (environ : String → Option String) (cc : CCState)
    (cur : Option String) : String × Option String :=
  if truthyStr cur then (cur.getD "", cur)
  else
    let v := crootFallback expand environ cc
    (v, some v)

/-- `Config.build_folder`: `os.path.join(self.croot, self.build_id)`
(config.py lines 102-106). -/
def build_folder (expand : String → String)
    (environ : String → Option String) (cc : CCState)
    (st : ConfigState) : String :=
  joinPath (crootValue expand environ cc st.crootVal) st.build_id

/-- `Config.PY3K`: `int(bool(self.CONDA_PY >= 30))` (config.py lines
108-110). -/
def PY3K (st : ConfigState) : Int :=
  if 30 ≤ st.CONDA_PY then 1 else 0

/-- `Config.bldpkgs_dir` (config.py lines 219-225): `croot/noarch` for
a noarch package, else `croot/<platform subdir>`. -/
def bldpkgs_dir (expand : String → String)
    (environ : String → Option String) (cc : CCState)
    (st : ConfigState) : String :=
  if st.noarch then joinPath (crootValue expand environ cc st.crootVal) "noarch"
  else joinPath (crootValue expand environ cc st.crootVal) cc.subdir

/-- `Config.bldpkgs_dirs` (config.py lines 227-230): the pair of the
platform directory and the noarch directory, unconditionally. -/
def bldpkgs_dirs (expand : String → String)
    (environ : String → Option String) (cc : CCState)
    (st : ConfigState) : List String :=
  [joinPath (crootValue expand environ cc st.crootVal) cc.subdir,
   joinPath (crootValue expand environ cc st.crootVal) "noarch"]

/-- Lexicographic (code-point) comparison of Python strings as
character lists: the boolean value of `a < b`. -/
def pyStrLt : List Char → List Char → Bool
  | _, [] => false
  | [], _ :: _ => true
  | a :: as, b :: bs =>
    if a < b then true else if b < a then false else pyStrLt as bs

/-- Python `max(a, b)` on strings: the second argument only when it is
strictly greater. -/
def pyMaxStr (a b : List Char) : List Char :=
  if pyStrLt a b then b else a

/-- Python string repetition `n * t` (zero for a non-positive count). -/
def repeatChars : Nat → List Char → List Char
  | 0, _ => []
  | Nat.succ n, t => t ++ repeatChars n t

/-- The ten-character padding token `'_placehold'`. -/
def placeholdTok : List Char :=
  ['_', 'p', 'l', 'a', 'c', 'e', 'h', 'o', 'l', 'd']

/-- The placeholder algorithm of the `build_prefix` property
(config.py lines 169-176), as a function of the unpadded stub and the
target length: `placeholder_length = L - len(stub)`, then
`repeats = int(math.ceil(placeholder_length / 10) + 1)` (the exact
integer ceiling `(placeholder_length + 9) fdiv 10` plus one; the float
division of the source is exact at every feasible path length), then
`placeholder = (stub + repeats * '_placehold')[:L]`, and the result is
`max(stub, placeholder)`.  The slice is modelled for the nonnegative
target lengths the specification quantifies over. -/
def build_prefix_path (stub : List Char) (L : Int) : List Char :=
  pyMaxStr stub
    ((stub ++
        repeatChars (Int.fdiv (L - (stub.length : Int) + 9) 10 + 1).toNat
          placeholdTok).take L.toNat)

/-- The `build_prefix` property itself:
`join(self.build_folder, '_build_env')` padded to
`self.prefix_length`. -/
def build_prefix_of (expand : String → String)
    (environ : String → Option String) (cc : CCState)
    (st : ConfigState) : String :=
  String.mk
    (build_prefix_path
      (joinPath (build_folder expand environ cc st) "_build_env").data
      st.prefix_length)

/-- Fixture: an empty process environment. -/
def environNone : String → Option String := fun _ => Option.none

/-- Fixture: an environment with `CONDA_R` set and `CONDA_LUA` set to
the empty string. -/
def environC3 : String → Option String := fun v =>
  if v == "CONDA_R" then some "3.3"
  else if v == "CONDA_LUA" then some "" else Option.none

/-- Fixture: an environment with `CONDA_BLD_PATH` set to a tilde
path. -/
def environBld : String → Option String := fun v =>
  if v == "CONDA_BLD_PATH" then some "~/x" else Option.none

/-- Fixture: an external collaborator state with a writable install
root. -/
def cc0 : CCState :=
  ⟨false, "linux-64", "/opt/conda", true, Option.none, "27"⟩

/-- Fixture: an external collaborator state with an unwritable install
root. -/
def ccNoWrite : CCState :=
  ⟨false, "linux-64", "/opt/conda", false, Option.none, "27"⟩

/-- Fixture: a concrete `abspath(expanduser(·))` for the inputs
exercised by the witnesses. -/
def expand0 : String → String := fun s =>
  if s == "~/x" then "/home/u/x"
  else if s == "~/conda-bld" then "/home/u/conda-bld" else s

/-- Fixture: the state of `Config()` built with no overrides under
`environNone` and `cc0`. -/
def stDef : ConfigState :=
  ⟨VerArg.vstr "5.18.2", VerArg.vstr "5.2", VerArg.vstr "3.2.2", 27,
   Option.none, "", 80, Option.none, false, true, false, [], false, true,
   false, false, false, false, false, Option.none, Option.none, false⟩

/-- Fixture: `stDef` after a merge that set `build_id`. -/
def stBuildX : ConfigState := { stDef with build_id := "pkg-1" }

/-- Fixture: a state with many non-default settings. -/
def stFancy : ConfigState :=
  { stDef with
    build_id := "pkg-2"
    prefix_length := 90
    crootVal := some "/x"
    use_long_build_pfx := true
    activate := false
    noarch := true
    token := some "tok"
    channel_urls := ["u1"] }

/-- Fixture: the result of merging the empty mapping over `stFancy`:
the namedtuple-driven settings keep the fancy values, everything else
reverts to defaults. -/
def stFancyMerged : ConfigState :=
  { stDef with
    activate := false
    noarch := true
    token := some "tok"
    channel_urls := ["u1"] }

/-- Fixture: `stDef` with an explicit `croot`. -/
def stC8 : ConfigState := { stDef with crootVal := some "/tmp/bld" }

/-- Fixture: `stC8` flagged noarch. -/
def stC9noarch : ConfigState := { stC8 with noarch := true }

/-- Fixture: `stDef` with the primary-language version 310. -/
def stPy310 : ConfigState := { stDef with CONDA_PY := 310 }

/-- Fixture: `stDef` with a resolved numpy version. -/
def stNpy19 : ConfigState := { stDef with CONDA_NPY := some 19 }

/-- Fixture: a malformed python override. -/
def kwPyBad : Kwargs :=
  { emptyKwargs with python := some (VerArg.vstr "3.1a") }

/-- Fixture: the python override `"3.10"`. -/
def kwPy310 : Kwargs :=
  { emptyKwargs with python := some (VerArg.vstr "3.10") }

/-- Fixture: a `build_id` override. -/
def kwBuildX : Kwargs :=
  { emptyKwargs with build_id := some "pkg-1" }

/-- Fixture: a single-element-list numpy override. -/
def kwNpyList : Kwargs :=
  { emptyKwargs with numpy := some (VerArg.vlist ["1.9"]) }

/-- Fixture: the scalar numpy override `"1.9"`. -/
def kwNpyScalar : Kwargs :=
  { emptyKwargs with numpy := some (VerArg.vstr "1.9") }

/-- A string compares lexicographically below any proper extension of
itself. -/
theorem pyStrLt_append (as : List Char) (c : Char) (cs : List Char) :
    pyStrLt as (as ++ c :: cs) = true := by
  induction as with
  | nil => rfl
  | cons a tl ih => simpa [pyStrLt] using ih

/-- No string compares lexicographically below a front slice of
itself. -/
theorem pyStrLt_take (as : List Char) (n : Nat) :
    pyStrLt as (as.take n) = false := by
  induction as generalizing n with
  | nil => cases n <;> rfl
  | cons a tl ih =>
    cases n with
    | zero => rfl
    | succ m => simpa [pyStrLt] using ih m

theorem pyMaxStr_eq_right (a b : List Char) (h : pyStrLt a b = true) :
    pyMaxStr a b = b := by
  simp [pyMaxStr, h]

theorem pyMaxStr_eq_left (a b : List Char) (h : pyStrLt a b = false) :
    pyMaxStr a b = a := by
  simp [pyMaxStr, h]

theorem repeatChars_length (n : Nat) (t : List Char) :
    (repeatChars n t).length = n * t.length := by
  induction n with
  | zero => simp [repeatChars]
  | succ m ih =>
    show (t ++ repeatChars m t).length = (m + 1) * t.length
    rw [List.length_append, ih]
    ring

/-- When the target exceeds the stub, truncating the padded
concatenation keeps the stub as a proper front part, so `max` picks
the padded string, whose length is exactly the target. -/
theorem pyMaxStr_padded_lt (stub rest : List Char) (n : Nat)
    (h1 : stub.length < n) (h2 : n ≤ stub.length + rest.length) :
    pyMaxStr stub ((stub ++ rest).take n) = (stub ++ rest).take n ∧
      ((stub ++ rest).take n).length = n := by
  have hsplit : (stub ++ rest).take n = stub ++ rest.take (n - stub.length) := by
    rw [List.take_append_eq_append_take,
      List.take_of_length_le (le_of_lt h1)]
  have htail : rest.take (n - stub.length) ≠ [] := by
    apply List.ne_nil_of_length_pos
    rw [List.length_take]
    omega
  obtain ⟨c, cs, hcs⟩ := List.exists_cons_of_ne_nil htail
  constructor
  · rw [hsplit, hcs]
    exact pyMaxStr_eq_right _ _ (pyStrLt_append stub c cs)
  · rw [List.length_take, List.length_append]
    omega

/-- When the target does not exceed the stub, the truncated padded
string is a front slice of the stub, so `max` returns the stub
unchanged. -/
theorem pyMaxStr_padded_ge (stub rest : List Char) (n : Nat)
    (h : n ≤ stub.length) :
    pyMaxStr stub ((stub ++ rest).take n) = stub := by
  have hz : n - stub.length = 0 := by omega
  have hsplit : (stub ++ rest).take n = stub.take n := by
    rw [List.take_append_eq_append_take, hz]
    simp
  rw [hsplit]
  exact pyMaxStr_eq_left _ _ (pyStrLt_take stub n)

/-- C1: for every stub path and every target length `L ≥ 1`, the
`build_prefix` placeholder algorithm returns a string of length
exactly `L` whenever the stub is shorter than `L`, returns the stub
unchanged whenever the stub has length at least `L`, and in no case
returns a string shorter than the stub. -/
theorem c1_build_prefix_padding (stub : List Char) (L : Int)
    (hL : 1 ≤ L) :
    (((stub.length : Int) < L →
        ((build_prefix_path stub L).length : Int) = L) ∧
      (L ≤ (stub.length : Int) → build_prefix_path stub L = stub)) ∧
    stub.length ≤ (build_prefix_path stub L).length := by
  have hfd : Int.fdiv (L - (stub.length : Int) + 9) 10
      = (L - (stub.length : Int) + 9) / 10 :=
    Int.fdiv_eq_ediv _ (by omega)
  have h10 : placeholdTok.length = 10 := rfl
  have hA : (stub.length : Int) < L →
      ((build_prefix_path stub L).length : Int) = L := by
    intro hlt
    unfold build_prefix_path
    rw [hfd]
    have hcore := pyMaxStr_padded_lt stub
      (repeatChars ((L - (stub.length : Int) + 9) / 10 + 1).toNat
        placeholdTok)
      L.toNat (by omega)
      (by rw [repeatChars_length, h10]; omega)
    rw [hcore.1, hcore.2]
    exact Int.toNat_of_nonneg (by omega)
  have hB : L ≤ (stub.length : Int) → build_prefix_path stub L = stub := by
    intro hge
    unfold build_prefix_path
    exact pyMaxStr_padded_ge stub _ L.toNat (by omega)
  refine ⟨⟨hA, hB⟩, ?_⟩
  rcases lt_or_le (stub.length : Int) L with hlt | hge
  · have := hA hlt
    omega
  · rw [hB hge]

/-- Witness for C1 at concrete inputs: stub `"ab"` padded to length 5,
and stub `"xyz"` left unchanged at target length 2. -/
theorem c1_witness :
    ((build_prefix_path ['a', 'b'] 5).length : Int) = 5 ∧
      build_prefix_path ['x', 'y', 'z'] 2 = ['x', 'y', 'z'] := by
  constructor
  · exact ((c1_build_prefix_padding ['a', 'b'] 5 (by decide)).1).1
      (by decide)
  · exact ((c1_build_prefix_padding ['x', 'y', 'z'] 2 (by decide)).1).2
      (by decide)

theorem env_scalar (environ : String → Option String) (s lang d : String)
    (hs : s ≠ "") :
    env environ (some (VerArg.vstr s)) lang d = VerArg.vstr s := by
  simp [env, truthyV, hs]

theorem env_list_single (environ : String → Option String)
    (v lang d : String) :
    env environ (some (VerArg.vlist [v])) lang d = VerArg.vstr v := by
  simp [env, truthyV]

theorem env_absent (environ : String → Option String) (lang d : String) :
    env environ Option.none lang d
      = VerArg.vstr (envLookupOr environ lang d) := rfl

theorem env_empty_scalar (environ : String → Option String)
    (lang d : String) :
    env environ (some (VerArg.vstr "")) lang d
      = VerArg.vstr (envLookupOr environ lang d) := by
  simp [env, truthyV]

theorem envLookupOr_set (environ : String → Option String)
    (lang d e : String) (he : environ (envVarName lang) = some e)
    (hne : e ≠ "") : envLookupOr environ lang d = e := by
  unfold envLookupOr
  rw [he]
  simp [hne]

theorem envLookupOr_unset (environ : String → Option String)
    (lang d : String)
    (h : environ (envVarName lang) = some "" ∨
      environ (envVarName lang) = Option.none) :
    envLookupOr environ lang d = d := by
  unfold envLookupOr
  rcases h with h | h <;> simp [h]

/-- C3: a version setting resolves to the explicit override when the
override is truthy, else to the environment variable named `CONDA_`
plus the upper-cased setting name — `CONDA_PY` for python — when that
variable is set and non-empty, else to the built-in default; an
environment variable set to the empty string is treated as unset, and
an empty-string override behaves like an absent one. -/
theorem c3_version_env_precedence (environ : String → Option String)
    (d : String) :
    (∀ lang s, s ≠ "" →
        env environ (some (VerArg.vstr s)) lang d = VerArg.vstr s) ∧
    (envVarName "perl" = "CONDA_PERL" ∧ envVarName "lua" = "CONDA_LUA" ∧
      envVarName "r" = "CONDA_R" ∧ envVarName "python" = "CONDA_PY") ∧
    (∀ lang e, environ (envVarName lang) = some e → e ≠ "" →
        env environ Option.none lang d = VerArg.vstr e) ∧
    (∀ lang,
        environ (envVarName lang) = some "" ∨
          environ (envVarName lang) = Option.none →
        env environ Option.none lang d = VerArg.vstr d) ∧
    (∀ lang, env environ (some (VerArg.vstr "")) lang d
        = env environ Option.none lang d) := by
  refine ⟨fun lang s hs => env_scalar environ s lang d hs,
    ⟨by decide, by decide, by decide, by decide⟩,
    fun lang e he hne => by
      rw [env_absent, envLookupOr_set environ lang d e he hne],
    fun lang h => by rw [env_absent, envLookupOr_unset environ lang d h],
    fun lang => by rw [env_empty_scalar, env_absent]⟩

/-- Witness for C3: a truthy override wins; `CONDA_R` set and
non-empty is used; `CONDA_LUA` set to the empty string falls back to
the default; an unset `CONDA_PERL` falls back to the default. -/
theorem c3_witness :
    env environC3 (some (VerArg.vstr "9.9")) "perl" "5.18.2"
        = VerArg.vstr "9.9" ∧
      env environC3 Option.none "r" "3.2.2" = VerArg.vstr "3.3" ∧
      env environC3 Option.none "lua" "5.2" = VerArg.vstr "5.2" ∧
      env environC3 Option.none "perl" "5.18.2"
        = VerArg.vstr "5.18.2" := by
  refine ⟨?_, ?_, ?_, ?_⟩
  · exact (c3_version_env_precedence environC3 "5.18.2").1 "perl" "9.9"
      (by decide)
  · exact (c3_version_env_precedence environC3 "3.2.2").2.2.1 "r" "3.3"
      (by decide) (by decide)
  · exact (c3_version_env_precedence environC3 "5.2").2.2.2.1 "lua"
      (Or.inl (by decide))
  · exact (c3_version_env_precedence environC3 "5.18.2").2.2.2.1 "perl"
      (Or.inr (by decide))

/-- C5: a version override whose normalization cannot produce an
integer makes the merge itself fail: a malformed python override makes
`set_keys` raise `ValueError` while computing `CONDA_PY`, and a
malformed numpy override prevents `set_keys` from returning any
state. -/
theorem c5_malformed_version_fails (environ : String → Option String)
    (cc : CCState) (prev : Option ConfigState) (s : String)
    (hs : s ≠ "") (hfail : pyIntOfString (removeDots s) = Option.none) :
    (∀ kw : Kwargs, kw.python = some (VerArg.vstr s) →
        set_keys environ cc prev kw = Except.error PyError.valueError) ∧
    (∀ kw : Kwargs, kw.numpy = some (VerArg.vstr s) →
        ∀ r : ConfigState, set_keys environ cc prev kw ≠ Except.ok r) := by
  constructor
  · intro kw hpy
    unfold set_keys
    rw [hpy, env_scalar environ s "python" cc.sys_py_default hs]
    simp [normalizePy, hfail]
  · intro kw hnp r
    unfold set_keys
    rcases hp : normalizePy (env environ kw.python "python"
        cc.sys_py_default) with e | v
    · simp [hp]
    · simp [hp, rawNpy, hnp, normalizeNpy, truthyV, hs, hfail]

/-- Witness for C5: the override `"3.1a"` makes the merge fail with
`ValueError`. -/
theorem c5_witness :
    set_keys environNone cc0 Option.none kwPyBad
      = Except.error PyError.valueError :=
  (c5_malformed_version_fails environNone cc0 Option.none "3.1a"
      (by decide) (by decide)).1 kwPyBad rfl

theorem digit_not_space (c : Char) (h : c.isDigit = true) :
    isSpaceChar c = false := by
  cases hsp : isSpaceChar c with
  | false => rfl
  | true =>
    exfalso
    simp only [isSpaceChar, Bool.or_eq_true, beq_iff_eq] at hsp
    rcases hsp with ((h1 | h1) | h1) | h1 <;> subst h1 <;>
      exact absurd h (by decide)

theorem digit_ne_char (c t : Char) (h : c.isDigit = true)
    (ht : t.isDigit = false) : (c == t) = false := by
  cases hbe : c == t with
  | false => rfl
  | true =>
    exfalso
    have he : c = t := eq_of_beq hbe
    subst he
    rw [h] at ht
    exact Bool.noConfusion ht

theorem dropWhile_space_digits (l : List Char)
    (h : l.all Char.isDigit = true) :
    l.dropWhile isSpaceChar = l := by
  cases l with
  | nil => rfl
  | cons a tl =>
    have ha : a.isDigit = true := by
      simp [List.all_cons] at h
      exact h.1
    rw [List.dropWhile_cons, digit_not_space a ha]
    simp

theorem pyIntOfString_digits (l : List Char) (hne : l ≠ [])
    (hdig : l.all Char.isDigit = true) :
    pyIntOfString (String.mk l) = some ((digitsVal l : Nat) : Int) := by
  have h1 : l.dropWhile isSpaceChar = l := dropWhile_space_digits l hdig
  have h2 : l.reverse.dropWhile isSpaceChar = l.reverse :=
    dropWhile_space_digits l.reverse (by simpa using hdig)
  unfold pyIntOfString
  rw [show (String.mk l).data = l from rfl, h1, h2, List.reverse_reverse]
  cases l with
  | nil => exact absurd rfl hne
  | cons c rest =>
    have hc : c.isDigit = true := by
      simp [List.all_cons] at hdig
      exact hdig.1
    have hminus : (c == '-') = false := digit_ne_char c '-' hc (by decide)
    have hplus : (c == '+') = false := digit_ne_char c '+' hc (by decide)
    simp [hminus, hplus, parseDigits]
    simpa [List.all_cons, List.all_eq_true] using hdig

theorem filter_dots_digits (l : List Char)
    (h : l.all (fun c => c.isDigit || c == '.') = true) :
    l.filter (fun c => !(c == '.')) = l.filter Char.isDigit := by
  apply List.filter_congr
  intro c hc
  have hcd : c.isDigit = true ∨ (c == '.') = true := by
    rw [List.all_eq_true] at h
    simpa [Bool.or_eq_true] using h c hc
  rcases hcd with hd | hd
  · rw [hd, digit_ne_char c '.' hd (by decide)]
    rfl
  · have he : c = '.' := eq_of_beq hd
    subst he
    decide

theorem PY3K_iff (st : ConfigState) : PY3K st = 1 ↔ 30 ≤ st.CONDA_PY := by
  unfold PY3K
  split
  · rename_i h
    simp [h]
  · rename_i h
    simp [h]

/-- C6: when the resolved primary-language version string consists of
digits and dots, `CONDA_PY` is the integer formed by concatenating
exactly its digits (every dot removed), and `PY3K` is 1 exactly when
that integer is at least 30. -/
theorem c6_conda_py_normalization (environ : String → Option String)
    (cc : CCState) (prev : Option ConfigState) (kw : Kwargs)
    (s : String) (r : ConfigState)
    (hpy : kw.python = some (VerArg.vstr s))
    (hchars : s.data.all (fun c => c.isDigit || c == '.') = true)
    (hsome : s.data.filter Char.isDigit ≠ [])
    (hok : set_keys environ cc prev kw = Except.ok r) :
    r.CONDA_PY = ((digitsVal (s.data.filter Char.isDigit) : Nat) : Int) ∧
      (PY3K r = 1 ↔ 30 ≤ r.CONDA_PY) := by
  have hs : s ≠ "" := by
    intro he
    subst he
    exact hsome rfl
  have hdig : (s.data.filter Char.isDigit).all Char.isDigit = true := by
    rw [List.all_eq_true]
    intro c hc
    exact (List.mem_filter.mp hc).2
  have hrd : removeDots s = String.mk (s.data.filter Char.isDigit) := by
    unfold removeDots
    rw [filter_dots_digits s.data hchars]
  have hparse : normalizePy (VerArg.vstr s)
      = Except.ok ((digitsVal (s.data.filter Char.isDigit) : Nat) : Int) := by
    show (match pyIntOfString (removeDots s) with
      | some n => Except.ok n
      | Option.none => Except.error PyError.valueError)
        = Except.ok ((digitsVal (s.data.filter Char.isDigit) : Nat) : Int)
    rw [hrd, pyIntOfString_digits _ hsome hdig]
  unfold set_keys at hok
  rw [hpy, env_scalar environ s "python" cc.sys_py_default hs, hparse]
    at hok
  rcases hn : normalizeNpy (rawNpy environ kw) with e | v
  · rw [hn] at hok
    exact absurd hok (by simp)
  · rw [hn] at hok
    have hr := Except.ok.inj hok
    exact ⟨by rw [← hr], PY3K_iff r⟩

/-- Witness for C6: the override `"3.10"` resolves `CONDA_PY` to 310
and `PY3K` is 1. -/
theorem c6_witness :
    stPy310.CONDA_PY
        = ((digitsVal ("3.10".data.filter Char.isDigit) : Nat) : Int) ∧
      (PY3K stPy310 = 1 ↔ 30 ≤ stPy310.CONDA_PY) :=
  c6_conda_py_normalization environNone cc0 Option.none kwPy310 "3.10"
    stPy310 rfl (by decide) (by decide) (by decide)

/-- Counterexample to C7: a single-element-list numpy override does
not resolve like the scalar: the scalar `"1.9"` resolves `CONDA_NPY`
to 19 while the list `["1.9"]` makes the merge raise
`AttributeError`. -/
theorem c7_counterexample :
    set_keys environNone cc0 Option.none kwNpyList
        = Except.error PyError.attributeError ∧
      set_keys environNone cc0 Option.none kwNpyScalar
        = Except.ok stNpy19 := by decide

/-- C7 amended: for the perl, lua, r and python settings and every
non-empty scalar string, a single-element-list override resolves
exactly like the scalar (the numpy setting performs no unwrapping, and
the two forms also differ on the empty scalar). -/
theorem c7_list_unwrap (environ : String → Option String)
    (lang d v : String) (hv : v ≠ "") :
    env environ (some (VerArg.vlist [v])) lang d
      = env environ (some (VerArg.vstr v)) lang d := by
  rw [env_list_single, env_scalar environ v lang d hv]

/-- Witness for C7 at the perl setting and value `"5.20"`. -/
theorem c7_witness :
    env environNone (some (VerArg.vlist ["5.20"])) "perl" "5.18.2"
      = env environNone (some (VerArg.vstr "5.20")) "perl" "5.18.2" :=
  c7_list_unwrap environNone "perl" "5.18.2" "5.20" (by decide)

/-- What each attribute of a successful `set_keys` result is, in terms
of the keyword arguments and the previous state. -/
theorem set_keys_ok_fields (environ : String → Option String)
    (cc : CCState) (prev : Option ConfigState) (kw : Kwargs)
    (r : ConfigState) (hok : set_keys environ cc prev kw = Except.ok r) :
    r.build_id = kw.build_id.getD "" ∧
    r.prefix_length = kw.prefix_length.getD 80 ∧
    r.crootVal = kw.croot ∧
    r.use_long_build_pfx = kw.use_long_build_pfx.getD false ∧
    r.activate
      = setAttrFromKwargs kw.activate (prev.map ConfigState.activate) true ∧
    r.anaconda_upload
      = setAttrFromKwargs kw.anaconda_upload
          (prev.map ConfigState.anaconda_upload) cc.binstar_upload ∧
    r.channel_urls
      = setAttrFromKwargs kw.channel_urls
          (prev.map ConfigState.channel_urls) [] ∧
    r.dirty = setAttrFromKwargs kw.dirty (prev.map ConfigState.dirty) false ∧
    r.include_recipe
      = setAttrFromKwargs kw.include_recipe
          (prev.map ConfigState.include_recipe) true ∧
    r.keep_old_work
      = setAttrFromKwargs kw.keep_old_work
          (prev.map ConfigState.keep_old_work) false ∧
    r.noarch
      = setAttrFromKwargs kw.noarch (prev.map ConfigState.noarch) false ∧
    r.no_download_source
      = setAttrFromKwargs kw.no_download_source
          (prev.map ConfigState.no_download_source) false ∧
    r.override_channels
      = setAttrFromKwargs kw.override_channels
          (prev.map ConfigState.override_channels) false ∧
    r.skip_existing
      = setAttrFromKwargs kw.skip_existing
          (prev.map ConfigState.skip_existing) false ∧
    r.token
      = setAttrFromKwargs kw.token (prev.map ConfigState.token)
          Option.none ∧
    r.user
      = setAttrFromKwargs kw.user (prev.map ConfigState.user)
          Option.none ∧
    r.verbose
      = setAttrFromKwargs kw.verbose (prev.map ConfigState.verbose)
          false := by
  unfold set_keys at hok
  rcases hp : normalizePy (env environ kw.python "python"
      cc.sys_py_default) with e | v
  · rw [hp] at hok
    exact absurd hok (by simp)
  · rw [hp] at hok
    rcases hn : normalizeNpy (rawNpy environ kw) with e2 | v2
    · rw [hn] at hok
      exact absurd hok (by simp)
    · rw [hn] at hok
      have hr := Except.ok.inj hok
      subst hr
      exact ⟨rfl, rfl, rfl, rfl, rfl, rfl, rfl, rfl, rfl, rfl, rfl, rfl,
        rfl, rfl, rfl, rfl, rfl⟩

/-- Counterexample to C2: `build_id` belongs to the claimed settings
class, yet merging the empty override mapping after a merge that set
`build_id` to `"pkg-1"` resets it to its default `""`. -/
theorem c2_counterexample :
    set_keys environNone cc0 Option.none kwBuildX = Except.ok stBuildX ∧
      stBuildX.build_id = "pkg-1" ∧
      set_keys environNone cc0 (some stBuildX) emptyKwargs
        = Except.ok stDef ∧
      stDef.build_id = "" := by decide

/-- C2 amended: for the thirteen namedtuple-driven settings (the
boolean/behavioral/channel class), resolution is explicit override,
then current value, then default, so merging an empty override mapping
leaves every one of them unchanged; `build_id`, `prefix_length`,
`croot` and `use_long_build_prefix` are excluded because omitting them
resets them to their defaults. -/
theorem c2_namedtuple_preserved (environ : String → Option String)
    (cc : CCState) (st r : ConfigState)
    (hok : set_keys environ cc (some st) emptyKwargs = Except.ok r) :
    r.activate = st.activate ∧ r.anaconda_upload = st.anaconda_upload ∧
    r.channel_urls = st.channel_urls ∧ r.dirty = st.dirty ∧
    r.include_recipe = st.include_recipe ∧
    r.keep_old_work = st.keep_old_work ∧ r.noarch = st.noarch ∧
    r.no_download_source = st.no_download_source ∧
    r.override_channels = st.override_channels ∧
    r.skip_existing = st.skip_existing ∧ r.token = st.token ∧
    r.user = st.user ∧ r.verbose = st.verbose := by
  obtain ⟨-, -, -, -, h5, h6, h7, h8, h9, h10, h11, h12, h13, h14, h15,
    h16, h17⟩ := set_keys_ok_fields environ cc (some st) emptyKwargs r hok
  exact ⟨h5, h6, h7, h8, h9, h10, h11, h12, h13, h14, h15, h16, h17⟩

/-- Witness for C2 amended: merging the empty mapping over `stBuildX`
keeps all thirteen namedtuple-driven settings. -/
theorem c2_witness :
    stDef.activate = stBuildX.activate ∧
      stDef.anaconda_upload = stBuildX.anaconda_upload ∧
      stDef.channel_urls = stBuildX.channel_urls ∧
      stDef.dirty = stBuildX.dirty ∧
      stDef.include_recipe = stBuildX.include_recipe ∧
      stDef.keep_old_work = stBuildX.keep_old_work ∧
      stDef.noarch = stBuildX.noarch ∧
      stDef.no_download_source = stBuildX.no_download_source ∧
      stDef.override_channels = stBuildX.override_channels ∧
      stDef.skip_existing = stBuildX.skip_existing ∧
      stDef.token = stBuildX.token ∧ stDef.user = stBuildX.user ∧
      stDef.verbose = stBuildX.verbose :=
  c2_namedtuple_preserved environNone cc0 stBuildX stDef (by decide)

/-- C10: a `set_keys` call whose mapping omits `build_id`,
`prefix_length`, `croot` or `use_long_build_prefix` resets them to
`""`, 80, unresolved and `false` respectively, whatever the previous
state, while the thirteen namedtuple-driven settings keep their prior
values when omitted; merging through `get_or_merge_config` with a
nonempty mapping is exactly such a `set_keys` call. -/
theorem c10_omitted_keys (environ : String → Option String)
    (cc : CCState) (prev : Option ConfigState) (kw : Kwargs)
    (r : ConfigState) (hok : set_keys environ cc prev kw = Except.ok r) :
    (kw.build_id = Option.none → r.build_id = "") ∧
    (kw.prefix_length = Option.none → r.prefix_length = 80) ∧
    (kw.croot = Option.none → r.crootVal = Option.none) ∧
    (kw.use_long_build_pfx = Option.none →
      r.use_long_build_pfx = false) ∧
    (∀ p, prev = some p →
      (kw.activate = Option.none → r.activate = p.activate) ∧
      (kw.anaconda_upload = Option.none →
        r.anaconda_upload = p.anaconda_upload) ∧
      (kw.channel_urls = Option.none →
        r.channel_urls = p.channel_urls) ∧
      (kw.dirty = Option.none → r.dirty = p.dirty) ∧
      (kw.include_recipe = Option.none →
        r.include_recipe = p.include_recipe) ∧
      (kw.keep_old_work = Option.none →
        r.keep_old_work = p.keep_old_work) ∧
      (kw.noarch = Option.none → r.noarch = p.noarch) ∧
      (kw.no_download_source = Option.none →
        r.no_download_source = p.no_download_source) ∧
      (kw.override_channels = Option.none →
        r.override_channels = p.override_channels) ∧
      (kw.skip_existing = Option.none →
        r.skip_existing = p.skip_existing) ∧
      (kw.token = Option.none → r.token = p.token) ∧
      (kw.user = Option.none → r.user = p.user) ∧
      (kw.verbose = Option.none → r.verbose = p.verbose)) ∧
    (∀ (c : ConfigState) (kw2 : Kwargs), kw2 ≠ emptyKwargs →
      get_or_merge_config environ cc (some c) kw2
        = set_keys environ cc (some c) kw2) := by
  obtain ⟨h1, h2, h3, h4, h5, h6, h7, h8, h9, h10, h11, h12, h13, h14,
    h15, h16, h17⟩ := set_keys_ok_fields environ cc prev kw r hok
  refine ⟨?_, ?_, ?_, ?_, ?_, ?_⟩
  · intro h
    rw [h1, h]
    rfl
  · intro h
    rw [h2, h]
    rfl
  · intro h
    rw [h3, h]
  · intro h
    rw [h4, h]
    rfl
  · intro p hp
    subst hp
    refine ⟨fun h => by rw [h5, h]; rfl, fun h => by rw [h6, h]; rfl,
      fun h => by rw [h7, h]; rfl, fun h => by rw [h8, h]; rfl,
      fun h => by rw [h9, h]; rfl, fun h => by rw [h10, h]; rfl,
      fun h => by rw [h11, h]; rfl, fun h => by rw [h12, h]; rfl,
      fun h => by rw [h13, h]; rfl, fun h => by rw [h14, h]; rfl,
      fun h => by rw [h15, h]; rfl, fun h => by rw [h16, h]; rfl,
      fun h => by rw [h17, h]; rfl⟩
  · intro c kw2 hne
    show (if kw2 = emptyKwargs then Except.ok c
        else set_keys environ cc (some c) kw2)
      = set_keys environ cc (some c) kw2
    rw [if_neg hne]

/-- Witness for C10: merging the empty mapping over the non-default
state `stFancy` resets the four directly-assigned settings and keeps
the namedtuple-driven ones. -/
theorem c10_witness :
    stFancyMerged.build_id = "" ∧ stFancyMerged.prefix_length = 80 ∧
      stFancyMerged.crootVal = Option.none ∧
      stFancyMerged.use_long_build_pfx = false ∧
      stFancyMerged.activate = stFancy.activate ∧
      stFancyMerged.noarch = stFancy.noarch ∧
      stFancyMerged.token = stFancy.token ∧
      get_or_merge_config environNone cc0 (some stDef) kwBuildX
        = set_keys environNone cc0 (some stDef) kwBuildX := by
  have h := c10_omitted_keys environNone cc0 (some stFancy) emptyKwargs
    stFancyMerged (by decide)
  refine ⟨h.1 rfl, h.2.1 rfl, h.2.2.1 rfl, h.2.2.2.1 rfl, ?_, ?_, ?_, ?_⟩
  · exact (h.2.2.2.2.1 stFancy rfl).1 rfl
  · exact (h.2.2.2.2.1 stFancy rfl).2.2.2.2.2.2.1 rfl
  · exact (h.2.2.2.2.1 stFancy rfl).2.2.2.2.2.2.2.2.2.2.1 rfl
  · exact h.2.2.2.2.2 stDef kwBuildX (by decide)

/-- Counterexample to C4: an explicit `croot` value is returned as
given, not expanded — with a concrete expansion function under which
`"~/x"` expands to `"/home/u/x"`, the property still returns
`"~/x"`. -/
theorem c4_counterexample :
    crootValue expand0 environNone cc0 (some "~/x") = "~/x" ∧
      expand0 "~/x" = "/home/u/x" ∧
      ("~/x" : String) ≠ "/home/u/x" := by decide

/-- C4 amended: a truthy explicit or cached value is returned as given
(not expanded); otherwise the fallback chain runs — the build-path
environment variable (expanded), then the toolchain root-dir
(expanded), then `<install-root>/conda-bld` when the root is writable,
else `~/conda-bld` (expanded) — the result is cached, and an access
after the cell is cleared to `None` re-runs the full chain. -/
theorem c4_croot_chain (expand : String → String)
    (environ : String → Option String) (cc : CCState) :
    (∀ s, s ≠ "" →
        crootAccess expand environ cc (some s) = (s, some s)) ∧
    (∀ cur, truthyStr cur = false →
        crootAccess expand environ cc cur
          = (crootFallback expand environ cc,
            some (crootFallback expand environ cc))) ∧
    (∀ e, environ "CONDA_BLD_PATH" = some e → e ≠ "" →
        crootFallback expand environ cc = expand e) ∧
    ((environ "CONDA_BLD_PATH" = Option.none ∨
        environ "CONDA_BLD_PATH" = some "") →
      (∀ rc, cc.rc_root_dir = some rc → rc ≠ "" →
          crootFallback expand environ cc = expand rc) ∧
      ((cc.rc_root_dir = Option.none ∨ cc.rc_root_dir = some "") →
        (cc.root_writable = true →
          crootFallback expand environ cc
            = joinPath cc.root_dir "conda-bld") ∧
        (cc.root_writable = false →
          crootFallback expand environ cc = expand "~/conda-bld"))) ∧
    (crootAccess expand environ cc Option.none).1
      = crootFallback expand environ cc := by
  refine ⟨?_, ?_, ?_, ?_, ?_⟩
  · intro s hs
    simp [crootAccess, truthyStr, hs]
  · intro cur h
    simp [crootAccess, h]
  · intro e he hne
    simp [crootFallback, he, hne]
  · intro h
    constructor
    · intro rc hrc hrcne
      rcases h with h | h <;> simp [crootFallback, h, hrc, hrcne]
    · intro h2
      constructor <;> intro hw <;> rcases h with h | h <;>
        rcases h2 with h2 | h2 <;> simp [crootFallback, h, h2, hw]
  · simp [crootAccess, truthyStr]

/-- Witness for C4: a cached value is returned and kept; the
environment variable branch, the writable-root branch and the
home-fallback branch each produce their value; a cleared cell re-runs
the chain. -/
theorem c4_witness :
    crootAccess expand0 environNone cc0 (some "/tmp/bld")
        = ("/tmp/bld", some "/tmp/bld") ∧
      crootFallback expand0 environBld cc0 = "/home/u/x" ∧
      crootFallback expand0 environNone cc0 = "/opt/conda/conda-bld" ∧
      crootFallback expand0 environNone ccNoWrite
        = "/home/u/conda-bld" ∧
      (crootAccess expand0 environNone cc0 Option.none).1
        = crootFallback expand0 environNone cc0 := by
  have h := c4_croot_chain expand0 environNone cc0
  have hb := c4_croot_chain expand0 environBld cc0
  have hn := c4_croot_chain expand0 environNone ccNoWrite
  refine ⟨h.1 "/tmp/bld" (by decide), ?_, ?_, ?_, h.2.2.2.2⟩
  · exact (hb.2.2.1 "~/x" (by decide) (by decide)).trans (by decide)
  · exact (((h.2.2.2.1 (Or.inl rfl)).2 (Or.inl rfl)).1 rfl).trans
      (by decide)
  · exact (((hn.2.2.2.1 (Or.inl rfl)).2 (Or.inl rfl)).2 rfl).trans
      (by decide)

theorem str_append_empty (s : String) : s ++ "" = s := by
  cases s with
  | mk l =>
    show String.mk (l ++ []) = String.mk l
    rw [List.append_nil]

/-- Joining an empty last path component appends the separator unless
the first component is empty or already ends with it. -/
theorem joinPath_empty_right (a : String) :
    joinPath a ""
      = (if (a == "") || lastIsSlash a then a else a ++ "/") := by
  unfold joinPath
  rw [if_neg (by decide : ¬(headIsSlash "" = true))]
  split
  · exact str_append_empty a
  · exact str_append_empty (a ++ "/")

/-- Counterexample to C8: with `build_id` unset and
`croot = "/tmp/bld"`, the build folder is `"/tmp/bld/"` — the same
directory with a trailing separator — not the string `croot` itself. -/
theorem c8_counterexample :
    stC8.build_id = "" ∧
      crootValue expand0 environNone cc0 stC8.crootVal = "/tmp/bld" ∧
      build_folder expand0 environNone cc0 stC8 = "/tmp/bld/" ∧
      ("/tmp/bld/" : String) ≠ "/tmp/bld" := by decide

/-- C8 amended: `build_id` defaults to the empty string, and with an
empty `build_id` the build folder is `croot` followed by the path
separator (or `croot` itself when it is empty or already ends with the
separator) — the same directory as `croot`, though not the identical
string. -/
theorem c8_build_folder_empty_id :
    (∀ (environ : String → Option String) (cc : CCState)
        (prev : Option ConfigState) (kw : Kwargs) (r : ConfigState),
        kw.build_id = Option.none →
        set_keys environ cc prev kw = Except.ok r → r.build_id = "") ∧
    (∀ (expand : String → String) (environ : String → Option String)
        (cc : CCState) (st : ConfigState), st.build_id = "" →
        build_folder expand environ cc st
          = (if (crootValue expand environ cc st.crootVal == "") ||
                lastIsSlash (crootValue expand environ cc st.crootVal)
              then crootValue expand environ cc st.crootVal
              else crootValue expand environ cc st.crootVal ++ "/")) := by
  constructor
  · intro environ cc prev kw r hb hok
    have h := (set_keys_ok_fields environ cc prev kw r hok).1
    rw [h, hb]
    rfl
  · intro expand environ cc st hb
    unfold build_folder
    rw [hb, joinPath_empty_right]

/-- Witness for C8: a fresh merge leaves `build_id` empty, and the
build folder of `stC8` is `"/tmp/bld/"`. -/
theorem c8_witness :
    stDef.build_id = "" ∧
      build_folder expand0 environNone cc0 stC8 = "/tmp/bld/" := by
  constructor
  · exact c8_build_folder_empty_id.1 environNone cc0 Option.none
      emptyKwargs stDef rfl (by decide)
  · exact (c8_build_folder_empty_id.2 expand0 environNone cc0 stC8
      rfl).trans (by decide)

/-- C9: the packages dir is `croot/noarch` exactly when the noarch
flag is set and `croot/<platform subdir>` otherwise, while the plural
packages dirs always contain both, whatever the flag; consequently the
packages dir is always among them. -/
theorem c9_bldpkgs_dirs_membership (expand : String → String)
    (environ : String → Option String) (cc : CCState)
    (st : ConfigState) :
    (st.noarch = true →
        bldpkgs_dir expand environ cc st
          = joinPath (crootValue expand environ cc st.crootVal)
              "noarch") ∧
    (st.noarch = false →
        bldpkgs_dir expand environ cc st
          = joinPath (crootValue expand environ cc st.crootVal)
              cc.subdir) ∧
    joinPath (crootValue expand environ cc st.crootVal) cc.subdir
        ∈ bldpkgs_dirs expand environ cc st ∧
    joinPath (crootValue expand environ cc st.crootVal) "noarch"
        ∈ bldpkgs_dirs expand environ cc st ∧
    bldpkgs_dir expand environ cc st
        ∈ bldpkgs_dirs expand environ cc st := by
  refine ⟨?_, ?_, ?_, ?_, ?_⟩
  · intro h
    simp [bldpkgs_dir, h]
  · intro h
    simp [bldpkgs_dir, h]
  · simp [bldpkgs_dirs]
  · simp [bldpkgs_dirs]
  · unfold bldpkgs_dir bldpkgs_dirs
    split
    · simp
    · simp

/-- Witness for C9 on concrete states with and without the noarch
flag. -/
theorem c9_witness :
    bldpkgs_dir expand0 environNone cc0 stC9noarch
        = "/tmp/bld/noarch" ∧
      bldpkgs_dir expand0 environNone cc0 stC8 = "/tmp/bld/linux-64" ∧
      ("/tmp/bld/linux-64" : String)
        ∈ bldpkgs_dirs expand0 environNone cc0 stC9noarch ∧
      ("/tmp/bld/noarch" : String)
        ∈ bldpkgs_dirs expand0 environNone cc0 stC9noarch := by
  have h1 := c9_bldpkgs_dirs_membership expand0 environNone cc0 stC9noarch
  have h2 := c9_bldpkgs_dirs_membership expand0 environNone cc0 stC8
  refine ⟨(h1.1 rfl).trans (by decide), (h2.2.1 rfl).trans (by decide),
    ?_, ?_⟩
  · exact (by decide : joinPath
        (crootValue expand0 environNone cc0 stC9noarch.crootVal)
        cc0.subdir = "/tmp/bld/linux-64") ▸ h1.2.2.1
  · exact (by decide : joinPath
        (crootValue expand0 environNone cc0 stC9noarch.crootVal)
        "noarch" = "/tmp/bld/noarch") ▸ h1.2.2.2.1

end CondaBuild
